import Mathlib

/-!
Verification of the employee-management GraphQL backend
(`mayur-thoughtwin/GraphQL-test-task-1`) against its natural-language
specification.  The TypeScript sources are shallowly embedded as Lean
functions: untrusted JavaScript numbers are modelled as `Rat` (so the
zod `.int()` check is observable), identifiers and emails as `String`,
the database as explicit lists of rows threaded through each operation,
and thrown `GraphQLError`s as `Except` values carrying the machine
readable `extensions.code`.
-/

namespace GraphQLTask

/-- The `extensions.code` values thrown by the resolvers
(`GraphQLError` codes appearing in the TypeScript sources). -/
inductive ErrCode where
  | UNAUTHENTICATED
  | NOT_FOUND
  | OTP_REQUIRED (email : String)
  | FORBIDDEN
  | BAD_USER_INPUT
  | EMAIL_SEND_FAILED
  | INTERNAL_SERVER_ERROR
  deriving Repr, DecidableEq

deriving instance DecidableEq for Except

/-- User roles, from the Prisma schema / `UserPayload` type. -/
inductive Role where
  | ADMIN
  | EMPLOYEE
  deriving Repr, DecidableEq

/-! ## Pagination (src/src/utils/pagination.utils.ts, src/src/validation/schemas.ts) -/

/-- `PaginationOptions` from pagination.utils.ts: the normalized descriptor. -/
structure PaginationOptions where
  skip : Int
  take : Int
  sortBy : String
  sortOrder : String
  deriving Repr, DecidableEq

/-- `PaginatedResult<T>` from pagination.utils.ts. -/
structure PaginatedResult (T : Type) where
  items : List T
  totalCount : Int
  hasNextPage : Bool
  hasPreviousPage : Bool
  deriving Repr, DecidableEq

/-- `buildPaginatedResponse` from pagination.utils.ts:
`hasNextPage = pagination.skip + pagination.take < totalCount`,
`hasPreviousPage = pagination.skip > 0`. -/
def buildPaginatedResponse {T : Type} (items : List T) (totalCount : Int)
    (pagination : PaginationOptions) : PaginatedResult T :=
  { items := items
    totalCount := totalCount
    hasNextPage := decide (pagination.skip + pagination.take < totalCount)
    hasPreviousPage := decide (pagination.skip > 0) }

/-- `PaginationArgs` from pagination.utils.ts: the raw, untrusted client
arguments.  JavaScript numbers are modelled as `Rat` so that the zod
`.int()` refinement is a real check. -/
structure PaginationArgs where
  skip : Option Rat
  take : Option Rat
  sortBy : Option String
  sortOrder : Option String
  deriving Repr, DecidableEq

/-- A JavaScript number passes zod's `.int()` exactly when it is an integer. -/
def numIsInt (q : Rat) : Bool := q.den == 1

/-- The `sortBy` enum of `paginationSchema` in schemas.ts. -/
def sortByAllowList : List String := ["name", "age", "class", "createdAt", "updatedAt"]

/-- The `sortOrder` enum of `paginationSchema` in schemas.ts. -/
def sortOrderAllowList : List String := ["asc", "desc"]

/-- `paginationSchema.parse` from schemas.ts, applied by `validateInput`:
each field check of the zod object; any failing field makes
`validateInput` throw a `BAD_USER_INPUT` error. -/
def paginationSchemaParse (skip take : Rat) (sortBy sortOrder : String) :
    Except ErrCode PaginationOptions :=
  if numIsInt skip && decide (0 ≤ skip)
      && numIsInt take && decide (1 ≤ take) && decide (take ≤ 100)
      && decide (sortBy ∈ sortByAllowList)
      && decide (sortOrder ∈ sortOrderAllowList) then
    .ok { skip := skip.num, take := take.num, sortBy := sortBy, sortOrder := sortOrder }
  else
    .error .BAD_USER_INPUT

/-- `getPaginationOptions` from pagination.utils.ts: fills defaults with
`??` and validates through `paginationSchema`. -/
def getPaginationOptions (args : PaginationArgs) : Except ErrCode PaginationOptions :=
  paginationSchemaParse (args.skip.getD 0) (args.take.getD 10)
    (args.sortBy.getD "createdAt") (args.sortOrder.getD "desc")

/-! ## Identity, context and the access gate
(src/src/context.ts, src/src/utils/auth.utils.ts,
src/src/graphql/resolvers/admin.resolver.ts) -/

/-- `UserPayload` from context.ts: the decoded JWT identity. -/
structure UserPayload where
  id : String
  role : Role
  deriving Repr, DecidableEq

/-- A row of the `User` table, restricted to the fields the verified
claims read (`id`, `email`, `role`, `otpVerified`, `otp`). -/
structure DbUser where
  id : String
  email : String
  role : Role
  otpVerified : Bool
  otp : Option String
  deriving Repr, DecidableEq

/-- `Context` from context.ts, together with the `User` table it reads
through `prisma`. -/
structure Ctx where
  users : List DbUser
  user : Option UserPayload
  deriving Repr, DecidableEq

/-- `prisma.user.findUnique({ where: { id } })`. -/
def findUserById (users : List DbUser) (id : String) : Option DbUser :=
  users.find? (fun u => u.id == id)

/-- `prisma.user.update({ where: { id }, data: { otp, otpExpires } })`. -/
def setUserOtp (users : List DbUser) (id : String) (otp : String) : List DbUser :=
  users.map (fun u => if u.id == id then { u with otp := some otp } else u)

/-- Outcome of one gate call: the value returned or error thrown, the
`User` table afterwards, and the observable notifier side effects.
`generateOTP` is random, so the fresh code is a parameter `freshOtp`;
`sendOTPEmail` may fail, so its success is a parameter `sendOk`. -/
structure GateResult where
  result : Except ErrCode UserPayload
  users : List DbUser
  otpGenerated : Nat
  emailsSent : Nat
  emailFailuresLogged : Nat
  deriving Repr, DecidableEq

/-- `requireAuthAndVerified` from auth.utils.ts: no identity throws
`UNAUTHENTICATED`; an identity absent from the `User` table throws
`NOT_FOUND`; an unverified user gets a fresh OTP stored, a best-effort
email (failures only logged), and `OTP_REQUIRED` with the email; a
verified user is returned. -/
def requireAuthAndVerified (freshOtp : String) (sendOk : Bool) (ctx : Ctx) : GateResult :=
  match ctx.user with
  | none =>
      { result := .error .UNAUTHENTICATED, users := ctx.users,
        otpGenerated := 0, emailsSent := 0, emailFailuresLogged := 0 }
  | some user =>
      match findUserById ctx.users user.id with
      | none =>
          { result := .error .NOT_FOUND, users := ctx.users,
            otpGenerated := 0, emailsSent := 0, emailFailuresLogged := 0 }
      | some dbUser =>
          if !dbUser.otpVerified then
            { result := .error (.OTP_REQUIRED dbUser.email),
              users := setUserOtp ctx.users user.id freshOtp,
              otpGenerated := 1,
              emailsSent := if sendOk then 1 else 0,
              emailFailuresLogged := if sendOk then 0 else 1 }
          else
            { result := .ok user, users := ctx.users,
              otpGenerated := 0, emailsSent := 0, emailFailuresLogged := 0 }

/-- `requireAdmin` from admin.resolver.ts: `requireAuthAndVerified`
followed by a role check throwing `FORBIDDEN`. -/
def requireAdmin (freshOtp : String) (sendOk : Bool) (ctx : Ctx) : GateResult :=
  let gate := requireAuthAndVerified freshOtp sendOk ctx
  match gate.result with
  | .error _ => gate
  | .ok user =>
      if user.role != Role.ADMIN then { gate with result := .error .FORBIDDEN }
      else gate

/-! ## Employees and the `employee(id)` query
(src/src/graphql/resolvers/employee.resolver.ts, src/src/validation/validate.ts) -/

/-- One character class of the UUID regex in `validateId` (validate.ts):
`[0-9a-f]` with the `i` flag. -/
def isUuidHexDigit (c : Char) : Bool :=
  c.isDigit || ('a' ≤ c && c ≤ 'f') || ('A' ≤ c && c ≤ 'F')

/-- `validateId` from validate.ts: the regex
`/^[0-9a-f]{8}-[0-9a-f]{4}-[0-9a-f]{4}-[0-9a-f]{4}-[0-9a-f]{12}$/i`. -/
def isUuid (s : String) : Bool :=
  let cs := s.toList
  cs.length == 36 &&
    (List.range 36).all (fun i =>
      if i = 8 ∨ i = 13 ∨ i = 18 ∨ i = 23 then cs.getD i ' ' == '-'
      else isUuidHexDigit (cs.getD i ' '))

/-- A row of the `Employee` table, restricted to the fields the verified
claims read. -/
structure EmployeeRow where
  id : String
  userId : String
  name : String
  age : Option Int
  «class» : Option String
  isActive : Bool
  deriving Repr, DecidableEq

/-- `prisma.employee.findUnique({ where: { id } })`. -/
def findEmployeeById (employees : List EmployeeRow) (id : String) : Option EmployeeRow :=
  employees.find? (fun e => e.id == id)

/-- The `employee(id)` query resolver from employee.resolver.ts:
gate, then `validateId`, then fetch; a missing row throws `NOT_FOUND`,
and only an existing row owned by someone else throws `FORBIDDEN` for a
non-admin. -/
def employeeQuery (freshOtp : String) (sendOk : Bool) (ctx : Ctx)
    (employees : List EmployeeRow) (id : String) : Except ErrCode EmployeeRow :=
  match (requireAuthAndVerified freshOtp sendOk ctx).result with
  | .error e => .error e
  | .ok user =>
      if !isUuid id then .error .BAD_USER_INPUT
      else
        match findEmployeeById employees id with
        | none => .error .NOT_FOUND
        | some employee =>
            if user.role != Role.ADMIN && employee.userId != user.id then
              .error .FORBIDDEN
            else
              .ok employee

/-! ## Attendance and `markAttendance`
(src/src/graphql/resolvers/admin.resolver.ts) -/

/-- A row of the `Attendance` table.  Dates are epoch instants
(`new Date(date)`), modelled as `Int`. -/
structure AttendanceRow where
  employeeId : String
  date : Int
  status : Bool
  deriving Repr, DecidableEq

/-- The composite unique key `employeeId_date` of the Prisma schema. -/
def attendanceKeyMatches (employeeId : String) (date : Int) (a : AttendanceRow) : Bool :=
  a.employeeId == employeeId && a.date == date

/-- `prisma.attendance.upsert({ where: { employeeId_date }, update: { status },
create: { employeeId, date, status } })`: update the row with the composite
key when present, otherwise insert it. -/
def upsertAttendance (table : List AttendanceRow) (employeeId : String) (date : Int)
    (status : Bool) : List AttendanceRow :=
  if table.any (attendanceKeyMatches employeeId date) then
    table.map (fun a =>
      if attendanceKeyMatches employeeId date a then { a with status := status } else a)
  else
    table ++ [{ employeeId := employeeId, date := date, status := status }]

/-- Outcome of one `markAttendance` call: the thrown error or success, and
the `Attendance` table afterwards. -/
structure MarkAttendanceResult where
  result : Except ErrCode Unit
  attendance : List AttendanceRow
  deriving Repr, DecidableEq

/-- The `markAttendance` mutation from admin.resolver.ts: `requireAdmin`,
input validation (`employeeId` a UUID, `date` parseable and not in the
future, via `markAttendanceInputSchema`), employee existence, then the
upsert on the composite key. -/
def markAttendance (freshOtp : String) (sendOk : Bool) (ctx : Ctx)
    (employees : List EmployeeRow) (table : List AttendanceRow)
    (now : Int) (employeeId : String) (date : Int) (status : Bool) : MarkAttendanceResult :=
  match (requireAdmin freshOtp sendOk ctx).result with
  | .error e => { result := .error e, attendance := table }
  | .ok _ =>
      if !(isUuid employeeId && decide (date ≤ now)) then
        { result := .error .BAD_USER_INPUT, attendance := table }
      else
        match findEmployeeById employees employeeId with
        | none => { result := .error .NOT_FOUND, attendance := table }
        | some _ =>
            { result := .ok (), attendance := upsertAttendance table employeeId date status }

/-- Number of `Attendance` rows carrying the composite key. -/
def countAttendanceKey (table : List AttendanceRow) (employeeId : String) (date : Int) : Nat :=
  table.countP (attendanceKeyMatches employeeId date)

/-! ## Registration (src/src/graphql/resolvers/auth.resolver.ts) -/

/-- The success payload returned by the `register` mutation. -/
structure RegisterSuccess where
  success : Bool
  email : String
  requiresOTPVerification : Bool
  deriving Repr, DecidableEq

/-- Outcome of one `register` call: the returned payload or thrown error,
the `User` table afterwards (keyed by email here), and the notifier side
effects. -/
structure RegisterResult where
  result : Except ErrCode RegisterSuccess
  users : List DbUser
  emailsSent : Nat
  emailFailuresLogged : Nat
  deriving Repr, DecidableEq

/-- `prisma.user.findUnique({ where: { email } })`. -/
def findUserByEmail (users : List DbUser) (email : String) : Option DbUser :=
  users.find? (fun u => u.email == email)

/-- `email.toLowerCase().trim()` from the `register` mutation, written out
over the character list. -/
def normalizeEmail (s : String) : String :=
  String.mk ((((s.data.map Char.toLower).dropWhile Char.isWhitespace).reverse.dropWhile
    Char.isWhitespace).reverse)

/-- The `register` mutation from auth.resolver.ts (post-`validateInput`
body; `bcrypt.hash` is external, so the caller passes `newId` for the
created row's id).  An existing unverified account gets a fresh OTP and a
best-effort email whose failure is only logged, and the mutation returns
success; an existing verified account throws `BAD_USER_INPUT`; a new
account is created unverified with the fresh OTP, after which a failing
OTP email throws `EMAIL_SEND_FAILED`. -/
def register (freshOtp : String) (sendOk : Bool) (users : List DbUser)
    (newId : String) (emailRaw : String) (role : Role) : RegisterResult :=
  let email := normalizeEmail emailRaw
  match findUserByEmail users email with
  | some existing =>
      if !existing.otpVerified then
        { result := .ok { success := true, email := email, requiresOTPVerification := true }
          users := users.map (fun u =>
            if u.email == email then { u with otp := some freshOtp } else u)
          emailsSent := if sendOk then 1 else 0
          emailFailuresLogged := if sendOk then 0 else 1 }
      else
        { result := .error .BAD_USER_INPUT, users := users,
          emailsSent := 0, emailFailuresLogged := 0 }
  | none =>
      let created : DbUser :=
        { id := newId, email := email, role := role, otpVerified := false,
          otp := some freshOtp }
      if sendOk then
        { result := .ok { success := true, email := email, requiresOTPVerification := true }
          users := users ++ [created], emailsSent := 1, emailFailuresLogged := 0 }
      else
        { result := .error .EMAIL_SEND_FAILED, users := users ++ [created],
          emailsSent := 0, emailFailuresLogged := 1 }

/-! ## Employee filtering (src/src/graphql/resolvers/admin.resolver.ts,
src/src/validation/schemas.ts) -/

/-- `charsStartWith needle hay`: `needle` is a leading run of `hay`. -/
def charsStartWith : List Char → List Char → Bool
  | [], _ => true
  | _ :: _, [] => false
  | n :: ns, h :: hs => n == h && charsStartWith ns hs

/-- `charsContain hay needle`: `needle` occurs contiguously in `hay`. -/
def charsContain : List Char → List Char → Bool
  | [], needle => needle.isEmpty
  | c :: hs, needle => charsStartWith needle (c :: hs) || charsContain hs needle

/-- Prisma's `{ contains: needle, mode: 'insensitive' }` on a text column:
case-insensitive substring match. -/
def containsInsensitive (hay needle : String) : Bool :=
  charsContain (hay.data.map Char.toLower) (needle.data.map Char.toLower)

/-- `EmployeeFilterInput` after `employeeFilterSchema` validation. -/
structure EmployeeFilter where
  name : Option String
  age : Option Int
  «class» : Option String
  isActive : Option Bool
  deriving Repr, DecidableEq

/-- `employeeFilterSchema` from schemas.ts: `name` capped at 100 chars,
`age` an integer in `[0, 150]`, `class` capped at 50 chars. -/
def employeeFilterValid (f : EmployeeFilter) : Bool :=
  (match f.name with | some n => n.length ≤ 100 | none => true) &&
  (match f.age with | some a => decide (0 ≤ a) && decide (a ≤ 150) | none => true) &&
  (match f.«class» with | some c => c.length ≤ 50 | none => true)

/-- The base `where` of the `employees` query: the related `user` must have
`role: 'EMPLOYEE'` and `otpVerified: true`. -/
def whereUserVerifiedEmployee (users : List DbUser) (userId : String) : Bool :=
  match findUserById users userId with
  | some u => u.role == Role.EMPLOYEE && u.otpVerified
  | none => false

/-- `if (validatedFilter.name) where.name = { contains, mode: 'insensitive' }`:
a truthy (non-empty) filter string constrains the column by
case-insensitive substring. -/
def whereTextContains (column : String) (v : Option String) : Bool :=
  match v with
  | some n => if n ≠ "" then containsInsensitive column n else true
  | none => true

/-- `if (validatedFilter.class) where.class = validatedFilter.class`: a
truthy (non-empty) filter string constrains the column by plain equality. -/
def whereTextEquals (column : Option String) (v : Option String) : Bool :=
  match v with
  | some c => if c ≠ "" then column == some c else true
  | none => true

/-- `if (validatedFilter.age !== undefined) where.age = validatedFilter.age`. -/
def whereAgeEquals (column : Option Int) (v : Option Int) : Bool :=
  match v with
  | some a => column == some a
  | none => true

/-- `if (validatedFilter.isActive !== undefined) where.isActive = ...`. -/
def whereActiveEquals (column : Bool) (v : Option Bool) : Bool :=
  match v with
  | some b => column == b
  | none => true

/-- The `where` object built by the `employees` query in admin.resolver.ts,
as the row predicate Prisma evaluates. -/
def employeesWhere (users : List DbUser) (f : EmployeeFilter) (e : EmployeeRow) : Bool :=
  whereUserVerifiedEmployee users e.userId &&
  whereTextContains e.name f.name &&
  whereAgeEquals e.age f.age &&
  whereTextEquals e.«class» f.«class» &&
  whereActiveEquals e.isActive f.isActive

/-- The `class` constraint the spec sentence describes: case-insensitive
substring matching, like `name`. -/
def whereSpecTextContains (column : Option String) (v : Option String) : Bool :=
  match v with
  | some c =>
      if c ≠ "" then
        match column with
        | some col => containsInsensitive col c
        | none => false
      else true
  | none => true

/-- The predicate the spec sentence describes, for comparison with
`employeesWhere`: identical except that the `class` text field also uses
case-insensitive substring matching. -/
def employeesWhereSpec (users : List DbUser) (f : EmployeeFilter) (e : EmployeeRow) : Bool :=
  whereUserVerifiedEmployee users e.userId &&
  whereTextContains e.name f.name &&
  whereAgeEquals e.age f.age &&
  whereSpecTextContains e.«class» f.«class» &&
  whereActiveEquals e.isActive f.isActive

/-! ## The batch loader set (src/src/types/graphql-depth-limit.d.ts,
function `createDataLoaders`; flushing modelled from the spec) -/

/-- Modelled from the spec: the batching/deduplication machinery of the
`dataloader` npm library backing `createDataLoaders` is not part of this
repository's sources.  Per §4.1/§5, the keys of the `load` calls issued
within one batching window are deduplicated by the request-scoped cache
(first-request order): a key already seen joins the pending entry instead
of adding a new one. -/
def dedupKeysAux (seen : List String) : List String → List String
  | [] => []
  | k :: ks =>
      if k ∈ seen then dedupKeysAux seen ks
      else k :: dedupKeysAux (k :: seen) ks

/-- Modelled from the spec: the deduplicated key set of one batching
window, in first-request order. -/
def dedupKeys (keys : List String) : List String := dedupKeysAux [] keys

/-- Observable trace of one batching window: every Persistence Gateway
batch call made (with the key list it carried) and the value delivered to
each waiting caller, in request order. -/
structure FlushTrace (V : Type) where
  gatewayCalls : List (List String)
  resolved : List V
  deriving Repr, DecidableEq

/-- Modelled from the spec: one DataLoader flush (§4.1).  All `load` calls
of the window are collected; the deduplicated key set goes to the Gateway
batch function exactly once; each caller is then resolved from that single
batch result, a missing key falling back to the loader kind's defined
empty value. -/
def loaderFlush {V : Type} (batchFn : List String → List (String × V)) (fallback : V)
    (keys : List String) : FlushTrace V :=
  let uniq := dedupKeys keys
  let rows := batchFn uniq
  { gatewayCalls := [uniq]
    resolved := keys.map (fun k =>
      ((rows.find? (fun r => r.1 == k)).map (fun r => r.2)).getD fallback) }

/-- A row of the `Subject` table. -/
structure SubjectRow where
  id : String
  name : String
  deriving Repr, DecidableEq

/-- An `employeeSubject` row joined with its `subject`
(`include: { subject: true }`). -/
structure EmployeeSubjectWithSubject where
  employeeId : String
  subject : SubjectRow
  deriving Repr, DecidableEq

/-- An `employeeSubject` row joined with its `employee`
(`include: { employee: true }`). -/
structure EmployeeSubjectWithEmployee where
  subjectId : String
  employee : EmployeeRow
  deriving Repr, DecidableEq

/-- `userLoader`'s batch callback from `createDataLoaders`: fetch the users
whose id is in the key list, then map each key to its user or `null`. -/
def userLoaderBatch (users : List DbUser) (userIds : List String) : List (Option DbUser) :=
  let fetched := users.filter (fun u => userIds.contains u.id)
  userIds.map (fun id => fetched.find? (fun u => u.id == id))

/-- `employeeLoader`'s batch callback from `createDataLoaders`. -/
def employeeLoaderBatch (employees : List EmployeeRow) (employeeIds : List String) :
    List (Option EmployeeRow) :=
  let fetched := employees.filter (fun e => employeeIds.contains e.id)
  employeeIds.map (fun id => fetched.find? (fun e => e.id == id))

/-- `employeeByUserIdLoader`'s batch callback from `createDataLoaders`. -/
def employeeByUserIdLoaderBatch (employees : List EmployeeRow) (userIds : List String) :
    List (Option EmployeeRow) :=
  let fetched := employees.filter (fun e => userIds.contains e.userId)
  userIds.map (fun id => fetched.find? (fun e => e.userId == id))

/-- `subjectLoader`'s batch callback from `createDataLoaders`. -/
def subjectLoaderBatch (subjects : List SubjectRow) (subjectIds : List String) :
    List (Option SubjectRow) :=
  let fetched := subjects.filter (fun s => subjectIds.contains s.id)
  subjectIds.map (fun id => fetched.find? (fun s => s.id == id))

/-- `subjectsByEmployeeIdLoader`'s batch callback from `createDataLoaders`:
fetch the join rows for the keyed employees, seed every key with `[]`, then
group the subjects by employee id. -/
def subjectsByEmployeeIdLoaderBatch (employeeSubjects : List EmployeeSubjectWithSubject)
    (employeeIds : List String) : List (List SubjectRow) :=
  let fetched := employeeSubjects.filter (fun es => employeeIds.contains es.employeeId)
  employeeIds.map (fun id =>
    (fetched.filter (fun es => es.employeeId == id)).map (fun es => es.subject))

/-- `employeesBySubjectIdLoader`'s batch callback from `createDataLoaders`. -/
def employeesBySubjectIdLoaderBatch (employeeSubjects : List EmployeeSubjectWithEmployee)
    (subjectIds : List String) : List (List EmployeeRow) :=
  let fetched := employeeSubjects.filter (fun es => subjectIds.contains es.subjectId)
  subjectIds.map (fun id =>
    (fetched.filter (fun es => es.subjectId == id)).map (fun es => es.employee))

/-- `attendanceByEmployeeIdLoader`'s batch callback from `createDataLoaders`
(the `orderBy: { date: 'desc' }` ordering is the fetch order of the input
list here). -/
def attendanceByEmployeeIdLoaderBatch (attendances : List AttendanceRow)
    (employeeIds : List String) : List (List AttendanceRow) :=
  let fetched := attendances.filter (fun a => employeeIds.contains a.employeeId)
  employeeIds.map (fun id => fetched.filter (fun a => a.employeeId == id))

/-! ## Theorems -/

/-- `numIsInt q && 0 ≤ q` holds exactly when `q` is (the cast of) a natural number. -/
theorem numIsInt_nonneg_iff (q : Rat) :
    (numIsInt q = true ∧ 0 ≤ q) ↔ ∃ n : ℕ, q = (n : ℚ) := by
  constructor
  · rintro ⟨h1, h2⟩
    have hden : q.den = 1 := by simpa [numIsInt] using h1
    have hq : (q.num : ℚ) = q := (Rat.den_eq_one_iff q).mp hden
    have hnum : 0 ≤ q.num := Rat.num_nonneg.mpr h2
    refine ⟨q.num.toNat, ?_⟩
    rw [← hq]
    exact_mod_cast (Int.toNat_of_nonneg hnum).symm
  · rintro ⟨n, rfl⟩
    exact ⟨by simp [numIsInt], by positivity⟩

/-- `numIsInt q && 1 ≤ q && q ≤ 100` holds exactly when `q` is a natural
number in `[1, 100]`. -/
theorem numIsInt_range_iff (q : Rat) :
    (numIsInt q = true ∧ 1 ≤ q ∧ q ≤ 100) ↔
      ∃ n : ℕ, 1 ≤ n ∧ n ≤ 100 ∧ q = (n : ℚ) := by
  constructor
  · rintro ⟨h1, h2, h3⟩
    obtain ⟨n, rfl⟩ := (numIsInt_nonneg_iff q).mp ⟨h1, le_trans (by norm_num) h2⟩
    exact ⟨n, by exact_mod_cast h2, by exact_mod_cast h3, rfl⟩
  · rintro ⟨n, hn1, hn2, rfl⟩
    exact ⟨by simp [numIsInt], by exact_mod_cast hn1, by exact_mod_cast hn2⟩

/-- C1: `buildPaginatedResponse` computes `hasNextPage = (skip + take < totalCount)`
and `hasPreviousPage = (skip > 0)` as a pure function of its three inputs; at the
boundary `skip + take = totalCount` the next-page flag is `false`. -/
theorem C1_buildPaginatedResponse_flags {T : Type} (items : List T) (totalCount : Int)
    (p : PaginationOptions) :
    ((buildPaginatedResponse items totalCount p).hasNextPage
        = decide (p.skip + p.take < totalCount))
    ∧ ((buildPaginatedResponse items totalCount p).hasPreviousPage = decide (p.skip > 0))
    ∧ ((buildPaginatedResponse items totalCount p).items = items)
    ∧ ((buildPaginatedResponse items totalCount p).totalCount = totalCount)
    ∧ (p.skip + p.take = totalCount →
        (buildPaginatedResponse items totalCount p).hasNextPage = false) := by
  refine ⟨rfl, rfl, rfl, rfl, fun h => ?_⟩
  simp [buildPaginatedResponse, h]

/-- C1 witness: at `skip = 0`, `take = 10`, `totalCount = 10` the next-page flag is `false`. -/
theorem C1_buildPaginatedResponse_flags_witness :
    (buildPaginatedResponse ([] : List Nat) 10
        { skip := 0, take := 10, sortBy := "createdAt", sortOrder := "desc" }).hasNextPage
      = false :=
  (C1_buildPaginatedResponse_flags ([] : List Nat) 10
    { skip := 0, take := 10, sortBy := "createdAt", sortOrder := "desc" }).2.2.2.2 (by decide)

/-- C4: pagination normalization fills defaults `skip = 0`, `take = 10`,
`sortBy = "createdAt"`, `sortOrder = "desc"` for absent fields; it fails (always
with the `BAD_USER_INPUT` validation code, the spec's `InvalidInput`) exactly
when the effective `skip` is not a non-negative integer, the effective `take` is
not an integer in `[1, 100]`, `sortBy` is outside the allow-list, or `sortOrder`
is outside `{asc, desc}`; `take = 101` is rejected and `take = 100` accepted. -/
theorem C4_getPaginationOptions_spec (args : PaginationArgs) :
    (getPaginationOptions { skip := none, take := none, sortBy := none, sortOrder := none }
        = .ok { skip := 0, take := 10, sortBy := "createdAt", sortOrder := "desc" })
    ∧ ((∃ e, getPaginationOptions args = .error e) ↔
        ¬ ((∃ n : ℕ, args.skip.getD 0 = (n : ℚ))
          ∧ (∃ n : ℕ, 1 ≤ n ∧ n ≤ 100 ∧ args.take.getD 10 = (n : ℚ))
          ∧ args.sortBy.getD "createdAt" ∈ sortByAllowList
          ∧ args.sortOrder.getD "desc" ∈ sortOrderAllowList))
    ∧ (∀ e, getPaginationOptions args = .error e → e = .BAD_USER_INPUT)
    ∧ (getPaginationOptions { skip := none, take := some 101, sortBy := none, sortOrder := none }
        = .error .BAD_USER_INPUT)
    ∧ (getPaginationOptions { skip := none, take := some 100, sortBy := none, sortOrder := none }
        = .ok { skip := 0, take := 100, sortBy := "createdAt", sortOrder := "desc" }) := by
  refine ⟨by decide, ?_, ?_, by decide, by decide⟩
  · rw [← numIsInt_nonneg_iff, ← numIsInt_range_iff]
    unfold getPaginationOptions paginationSchemaParse
    split
    case isTrue h =>
      simp only [Bool.and_eq_true, decide_eq_true_eq] at h
      obtain ⟨⟨⟨⟨⟨⟨h1, h2⟩, h3⟩, h4⟩, h5⟩, h6⟩, h7⟩ := h
      constructor
      · rintro ⟨e, he⟩
        exact Except.noConfusion he
      · intro hnot
        exact absurd ⟨⟨h1, h2⟩, ⟨h3, h4, h5⟩, h6, h7⟩ hnot
    case isFalse h =>
      constructor
      · intro _ hc
        obtain ⟨⟨h1, h2⟩, ⟨h3, h4, h5⟩, h6, h7⟩ := hc
        refine h ?_
        simp only [Bool.and_eq_true, decide_eq_true_eq]
        exact ⟨⟨⟨⟨⟨⟨h1, h2⟩, h3⟩, h4⟩, h5⟩, h6⟩, h7⟩
      · intro _
        exact ⟨.BAD_USER_INPUT, rfl⟩
  · unfold getPaginationOptions paginationSchemaParse
    split
    · intro e he
      exact Except.noConfusion he
    · intro e he
      exact (Except.error.inj he).symm

/-- C4 witness: a fractional `skip` of `1/2` is rejected with `BAD_USER_INPUT`. -/
theorem C4_getPaginationOptions_spec_witness :
    getPaginationOptions { skip := none, take := some 101, sortBy := none, sortOrder := none }
      = .error .BAD_USER_INPUT :=
  (C4_getPaginationOptions_spec
    { skip := none, take := none, sortBy := none, sortOrder := none }).2.2.2.1

/-- C5: the access gate evaluates its rules in order with short-circuiting:
no identity fails `UNAUTHENTICATED`; an authenticated identity whose stored
user is unverified gets exactly one fresh OTP stored, a non-fatal delivery
attempt (failure never changes outcome or state), and `OTP_REQUIRED`
carrying the stored email; only a verified non-admin identity reaches the
`FORBIDDEN` admin check. -/
theorem C5_accessGate_order (freshOtp : String) (sendOk : Bool) (ctx : Ctx) :
    (ctx.user = none →
      requireAdmin freshOtp sendOk ctx =
        { result := .error .UNAUTHENTICATED, users := ctx.users,
          otpGenerated := 0, emailsSent := 0, emailFailuresLogged := 0 })
    ∧ (∀ u dbU, ctx.user = some u → findUserById ctx.users u.id = some dbU →
        dbU.otpVerified = false →
          (requireAdmin freshOtp sendOk ctx).result = .error (.OTP_REQUIRED dbU.email)
          ∧ (requireAdmin freshOtp sendOk ctx).otpGenerated = 1
          ∧ (requireAdmin freshOtp sendOk ctx).users = setUserOtp ctx.users u.id freshOtp
          ∧ (requireAdmin freshOtp sendOk ctx).emailsSent
              + (requireAdmin freshOtp sendOk ctx).emailFailuresLogged = 1
          ∧ (requireAdmin freshOtp false ctx).result = (requireAdmin freshOtp true ctx).result
          ∧ (requireAdmin freshOtp false ctx).users = (requireAdmin freshOtp true ctx).users)
    ∧ (∀ u dbU, ctx.user = some u → findUserById ctx.users u.id = some dbU →
        dbU.otpVerified = true → u.role ≠ Role.ADMIN →
          requireAdmin freshOtp sendOk ctx =
            { result := .error .FORBIDDEN, users := ctx.users,
              otpGenerated := 0, emailsSent := 0, emailFailuresLogged := 0 }) := by
  refine ⟨?_, ?_, ?_⟩
  · intro h
    simp [requireAdmin, requireAuthAndVerified, h]
  · intro u dbU hu hdb hver
    cases sendOk <;>
      simp [requireAdmin, requireAuthAndVerified, hu, hdb, hver]
  · intro u dbU hu hdb hver hrole
    simp [requireAdmin, requireAuthAndVerified, hu, hdb, hver, hrole]

/-- C5 witness: a concrete unverified employee identity is refused with
`OTP_REQUIRED` carrying their email. -/
theorem C5_accessGate_order_witness :
    (requireAdmin "111111" true
      { users := [{ id := "u1", email := "a@b.c", role := .EMPLOYEE,
                    otpVerified := false, otp := none }],
        user := some { id := "u1", role := .EMPLOYEE } }).result
      = .error (.OTP_REQUIRED "a@b.c") :=
  ((C5_accessGate_order "111111" true
      { users := [{ id := "u1", email := "a@b.c", role := .EMPLOYEE,
                    otpVerified := false, otp := none }],
        user := some { id := "u1", role := .EMPLOYEE } }).2.1
    { id := "u1", role := .EMPLOYEE }
    { id := "u1", email := "a@b.c", role := .EMPLOYEE, otpVerified := false, otp := none }
    rfl (by decide) rfl).1

/-- C10: an authenticated identity whose id matches no stored user makes
the gate fail with `NOT_FOUND` — an outcome distinct from the three
documented ones — with no OTP generated and no email attempted. -/
theorem C10_gate_unknownIdentity (freshOtp : String) (sendOk : Bool) (ctx : Ctx)
    (u : UserPayload) (hu : ctx.user = some u)
    (hdb : findUserById ctx.users u.id = none) :
    requireAuthAndVerified freshOtp sendOk ctx =
      { result := .error .NOT_FOUND, users := ctx.users,
        otpGenerated := 0, emailsSent := 0, emailFailuresLogged := 0 }
    ∧ (∀ email, ErrCode.NOT_FOUND ≠ .UNAUTHENTICATED
        ∧ ErrCode.NOT_FOUND ≠ .OTP_REQUIRED email
        ∧ ErrCode.NOT_FOUND ≠ .FORBIDDEN) := by
  refine ⟨?_, fun email => by refine ⟨?_, ?_, ?_⟩ <;> intro h <;> cases h⟩
  simp [requireAuthAndVerified, hu, hdb]

/-- C10 witness: a concrete token for a deleted user id yields `NOT_FOUND`. -/
theorem C10_gate_unknownIdentity_witness :
    requireAuthAndVerified "111111" true
      { users := [], user := some { id := "ghost", role := .EMPLOYEE } } =
      { result := .error .NOT_FOUND, users := [],
        otpGenerated := 0, emailsSent := 0, emailFailuresLogged := 0 } :=
  (C10_gate_unknownIdentity "111111" true
    { users := [], user := some { id := "ghost", role := .EMPLOYEE } }
    { id := "ghost", role := .EMPLOYEE } rfl (by decide)).1

/-- C6 counterexample: a verified non-admin caller querying a valid but
nonexistent employee id gets `NOT_FOUND`, not the `FORBIDDEN` the claim
states for "regardless of whether the Employee exists". -/
theorem C6_counterexample :
    employeeQuery "123456" true
        { users := [{ id := "u1", email := "e@x.com", role := .EMPLOYEE,
                      otpVerified := true, otp := none }],
          user := some { id := "u1", role := .EMPLOYEE } }
        [] "11111111-1111-1111-1111-111111111111"
      = .error .NOT_FOUND
    ∧ (Except.error .NOT_FOUND : Except ErrCode EmployeeRow)
        ≠ .error .FORBIDDEN := by
  decide

/-- C6 amended: for a verified non-admin caller, `employee(id)` fails with
`FORBIDDEN` when an Employee with that id exists and is owned by a
different user; when no such Employee exists it fails with `NOT_FOUND`
instead. -/
theorem C6_employeeQuery_ownership (freshOtp : String) (sendOk : Bool) (ctx : Ctx)
    (employees : List EmployeeRow) (id : String) (u : UserPayload) (dbU : DbUser)
    (hu : ctx.user = some u) (hdb : findUserById ctx.users u.id = some dbU)
    (hver : dbU.otpVerified = true) (hrole : u.role ≠ Role.ADMIN)
    (hid : isUuid id = true) :
    (∀ emp, findEmployeeById employees id = some emp → emp.userId ≠ u.id →
        employeeQuery freshOtp sendOk ctx employees id = .error .FORBIDDEN)
    ∧ (findEmployeeById employees id = none →
        employeeQuery freshOtp sendOk ctx employees id = .error .NOT_FOUND) := by
  constructor
  · intro emp hemp hown
    simp [employeeQuery, requireAuthAndVerified, hu, hdb, hver, hid, hemp, hown, hrole]
  · intro hnone
    simp [employeeQuery, requireAuthAndVerified, hu, hdb, hver, hid, hnone]

/-- C6 amended witness: a concrete foreign-owned employee is refused with
`FORBIDDEN` for a verified non-admin caller. -/
theorem C6_employeeQuery_ownership_witness :
    employeeQuery "123456" true
        { users := [{ id := "u1", email := "e@x.com", role := .EMPLOYEE,
                      otpVerified := true, otp := none }],
          user := some { id := "u1", role := .EMPLOYEE } }
        [{ id := "11111111-1111-1111-1111-111111111111", userId := "u2",
           name := "n", age := none, «class» := none, isActive := true }]
        "11111111-1111-1111-1111-111111111111"
      = .error .FORBIDDEN :=
  (C6_employeeQuery_ownership "123456" true
      { users := [{ id := "u1", email := "e@x.com", role := .EMPLOYEE,
                    otpVerified := true, otp := none }],
        user := some { id := "u1", role := .EMPLOYEE } }
      [{ id := "11111111-1111-1111-1111-111111111111", userId := "u2",
         name := "n", age := none, «class» := none, isActive := true }]
      "11111111-1111-1111-1111-111111111111"
      { id := "u1", role := .EMPLOYEE }
      { id := "u1", email := "e@x.com", role := .EMPLOYEE, otpVerified := true, otp := none }
      rfl (by decide) rfl (by decide) (by decide)).1
    { id := "11111111-1111-1111-1111-111111111111", userId := "u2",
      name := "n", age := none, «class» := none, isActive := true }
    (by decide) (by decide)

/-- The upsert's status update leaves every row's composite key unchanged. -/
theorem attendanceKeyMatches_statusUpdate (e : String) (d : Int) (s : Bool)
    (e' : String) (d' : Int) (a : AttendanceRow) :
    attendanceKeyMatches e' d'
        (if attendanceKeyMatches e d a then { a with status := s } else a)
      = attendanceKeyMatches e' d' a := by
  by_cases h1 : a.employeeId = e ∧ a.date = d
  · simp [attendanceKeyMatches, h1]
  · simp [attendanceKeyMatches, h1]

/-- Effect of `upsertAttendance` on per-key row counts: other keys are
untouched, and its own key ends at `max 1` of its previous count. -/
theorem countAttendanceKey_upsert (table : List AttendanceRow) (e : String) (d : Int)
    (s : Bool) (e' : String) (d' : Int) :
    countAttendanceKey (upsertAttendance table e d s) e' d' =
      if e' = e ∧ d' = d then max 1 (countAttendanceKey table e' d')
      else countAttendanceKey table e' d' := by
  unfold upsertAttendance countAttendanceKey
  split
  case isTrue hany =>
    have hmap : List.countP (attendanceKeyMatches e' d')
        (table.map (fun a =>
          if attendanceKeyMatches e d a then { a with status := s } else a))
        = List.countP (attendanceKeyMatches e' d') table := by
      rw [List.countP_map]
      exact List.countP_congr (fun a _ => by
        simp [Function.comp, attendanceKeyMatches_statusUpdate])
    rw [hmap]
    split
    case isTrue hkey =>
      obtain ⟨rfl, rfl⟩ := hkey
      obtain ⟨a, ha, hpa⟩ := List.any_eq_true.mp hany
      exact (Nat.max_eq_right (List.countP_pos_iff.mpr ⟨a, ha, hpa⟩)).symm
    case isFalse => rfl
  case isFalse hany =>
    rw [List.countP_append]
    have hzero : ∀ a ∈ table, ¬(attendanceKeyMatches e d a = true) := by
      intro a ha hpa
      exact hany (List.any_eq_true.mpr ⟨a, ha, hpa⟩)
    split
    case isTrue hkey =>
      obtain ⟨rfl, rfl⟩ := hkey
      rw [List.countP_eq_zero.mpr hzero]
      simp [attendanceKeyMatches]
    case isFalse hkey =>
      have hrow : attendanceKeyMatches e' d'
          { employeeId := e, date := d, status := s } = false := by
        rw [Bool.eq_false_iff]
        intro hc
        simp only [attendanceKeyMatches, Bool.and_eq_true, beq_iff_eq] at hc
        exact hkey ⟨hc.1.symm, hc.2.symm⟩
      simp [hrow]

/-- After `upsertAttendance`, every row carrying the upserted key has the
upserted status. -/
theorem upsertAttendance_status (table : List AttendanceRow) (e : String) (d : Int)
    (s : Bool) :
    ∀ a ∈ upsertAttendance table e d s,
      attendanceKeyMatches e d a = true → a.status = s := by
  unfold upsertAttendance
  split
  case isTrue hany =>
    intro a ha hk
    obtain ⟨b, hb, rfl⟩ := List.mem_map.mp ha
    rw [attendanceKeyMatches_statusUpdate] at hk
    simp [hk]
  case isFalse hany =>
    intro a ha hk
    rcases List.mem_append.mp ha with h | h
    · exact absurd (List.any_eq_true.mpr ⟨a, h, hk⟩) hany
    · simp only [List.mem_singleton] at h
      subst h
      rfl

/-- `markAttendance`'s result is independent of the attendance table and
the marked status: only the gate, validation and employee lookup decide it. -/
theorem markAttendance_result_table_independent (freshOtp : String) (sendOk : Bool)
    (ctx : Ctx) (employees : List EmployeeRow) (t t' : List AttendanceRow) (now : Int)
    (employeeId : String) (date : Int) (st st' : Bool) :
    (markAttendance freshOtp sendOk ctx employees t now employeeId date st).result
      = (markAttendance freshOtp sendOk ctx employees t' now employeeId date st').result := by
  unfold markAttendance
  cases hg : (requireAdmin freshOtp sendOk ctx).result with
  | error e => simp
  | ok u =>
    by_cases hval : (isUuid employeeId && decide (date ≤ now)) = true
    · simp only [hval]
      cases findEmployeeById employees employeeId <;> simp
    · have hval' : (isUuid employeeId && decide (date ≤ now)) = false :=
        Bool.eq_false_iff.mpr hval
      simp [hval']

/-- A successful `markAttendance` leaves behind exactly the upsert of the
input table. -/
theorem markAttendance_ok_eq (freshOtp : String) (sendOk : Bool) (ctx : Ctx)
    (employees : List EmployeeRow) (table : List AttendanceRow) (now : Int)
    (employeeId : String) (date : Int) (status : Bool)
    (hok : (markAttendance freshOtp sendOk ctx employees table now
        employeeId date status).result = .ok ()) :
    (markAttendance freshOtp sendOk ctx employees table now employeeId date
        status).attendance
      = upsertAttendance table employeeId date status := by
  unfold markAttendance at hok ⊢
  cases hg : (requireAdmin freshOtp sendOk ctx).result with
  | error e =>
    rw [hg] at hok
    simp at hok
  | ok u =>
    rw [hg] at hok
    by_cases hval : (isUuid employeeId && decide (date ≤ now)) = true
    · cases hemp : findEmployeeById employees employeeId with
      | none =>
        rw [hemp] at hok
        simp [hval] at hok
      | some emp =>
        simp [hval, hemp]
    · have hval' : (isUuid employeeId && decide (date ≤ now)) = false :=
        Bool.eq_false_iff.mpr hval
      simp [hval'] at hok

/-- C7: on a table satisfying the one-row-per-`(employeeId, date)`
invariant, two successive successful `markAttendance` calls for the same
`(employeeId, date)` leave exactly one row for that key, its status being
the later call's status; every call preserves the invariant. -/
theorem C7_markAttendance_idempotentUpsert (freshOtp : String) (sendOk : Bool)
    (ctx : Ctx) (employees : List EmployeeRow) (table : List AttendanceRow)
    (now : Int) (employeeId : String) (date : Int) (s1 s2 : Bool)
    (hinv : ∀ e' d', countAttendanceKey table e' d' ≤ 1)
    (hok : (markAttendance freshOtp sendOk ctx employees table now
        employeeId date s1).result = .ok ()) :
    countAttendanceKey
        (markAttendance freshOtp sendOk ctx employees
          (markAttendance freshOtp sendOk ctx employees table now
            employeeId date s1).attendance
          now employeeId date s2).attendance employeeId date = 1
    ∧ (∀ a ∈ (markAttendance freshOtp sendOk ctx employees
          (markAttendance freshOtp sendOk ctx employees table now
            employeeId date s1).attendance
          now employeeId date s2).attendance,
        attendanceKeyMatches employeeId date a = true → a.status = s2)
    ∧ (∀ e' d', countAttendanceKey
        (markAttendance freshOtp sendOk ctx employees
          (markAttendance freshOtp sendOk ctx employees table now
            employeeId date s1).attendance
          now employeeId date s2).attendance e' d' ≤ 1) := by
  have h1 := markAttendance_ok_eq freshOtp sendOk ctx employees table now
    employeeId date s1 hok
  have hok2 : (markAttendance freshOtp sendOk ctx employees
      (markAttendance freshOtp sendOk ctx employees table now
        employeeId date s1).attendance
      now employeeId date s2).result = .ok () := by
    rw [markAttendance_result_table_independent freshOtp sendOk ctx employees _ table
      now employeeId date s2 s1]
    exact hok
  have h2 := markAttendance_ok_eq freshOtp sendOk ctx employees _ now
    employeeId date s2 hok2
  rw [h2, h1]
  have hcount1 : ∀ e' d',
      countAttendanceKey (upsertAttendance table employeeId date s1) e' d' ≤ 1 := by
    intro e' d'
    rw [countAttendanceKey_upsert]
    split
    · exact Nat.max_le.mpr ⟨le_refl 1, hinv e' d'⟩
    · exact hinv e' d'
  refine ⟨?_, ?_, ?_⟩
  · rw [countAttendanceKey_upsert, if_pos ⟨rfl, rfl⟩]
    have hle := hcount1 employeeId date
    have hge : 1 ≤ max 1 (countAttendanceKey (upsertAttendance table employeeId date s1)
        employeeId date) := Nat.le_max_left _ _
    omega
  · exact upsertAttendance_status _ employeeId date s2
  · intro e' d'
    rw [countAttendanceKey_upsert]
    split
    · exact Nat.max_le.mpr ⟨le_refl 1, hcount1 e' d'⟩
    · exact hcount1 e' d'

/-- C7 witness: marking the same day twice (present, then absent) for a
concrete employee leaves exactly one attendance row for that day. -/
theorem C7_markAttendance_idempotentUpsert_witness :
    countAttendanceKey
        (markAttendance "1" true
          { users := [{ id := "a1", email := "adm@x.com", role := .ADMIN,
                        otpVerified := true, otp := none }],
            user := some { id := "a1", role := .ADMIN } }
          [{ id := "11111111-1111-1111-1111-111111111111", userId := "a1",
             name := "Ann", age := none, «class» := none, isActive := true }]
          (markAttendance "1" true
            { users := [{ id := "a1", email := "adm@x.com", role := .ADMIN,
                          otpVerified := true, otp := none }],
              user := some { id := "a1", role := .ADMIN } }
            [{ id := "11111111-1111-1111-1111-111111111111", userId := "a1",
               name := "Ann", age := none, «class» := none, isActive := true }]
            [] 10 "11111111-1111-1111-1111-111111111111" 5 true).attendance
          10 "11111111-1111-1111-1111-111111111111" 5 false).attendance
        "11111111-1111-1111-1111-111111111111" 5 = 1 :=
  (C7_markAttendance_idempotentUpsert "1" true
    { users := [{ id := "a1", email := "adm@x.com", role := .ADMIN,
                  otpVerified := true, otp := none }],
      user := some { id := "a1", role := .ADMIN } }
    [{ id := "11111111-1111-1111-1111-111111111111", userId := "a1",
       name := "Ann", age := none, «class» := none, isActive := true }]
    [] 10 "11111111-1111-1111-1111-111111111111" 5 true false
    (fun e' d' => by simp [countAttendanceKey])
    (by decide)).1

/-- C8 counterexample: registering a brand-new account while the OTP email
send fails does not return success — the mutation throws
`EMAIL_SEND_FAILED` (auth.resolver.ts lines 382-389), refuting "a failure
of the outbound OTP email notifier is swallowed" for every registration. -/
theorem C8_counterexample :
    (register "123456" false [] "id1" "new@user.com" .EMPLOYEE).result
      = .error .EMAIL_SEND_FAILED := by decide

/-- C8 amended: only for an already-registered unverified account is the
OTP email failure swallowed (registration still returns success, and the
outcome is independent of delivery); for a brand-new account a send
failure aborts the mutation with `EMAIL_SEND_FAILED`, though the user row
is still created. -/
theorem C8_register_notifierFailure (freshOtp : String) (sendOk : Bool)
    (users : List DbUser) (newId emailRaw : String) (role : Role) :
    (∀ u, findUserByEmail users (normalizeEmail emailRaw) = some u →
        u.otpVerified = false →
          (register freshOtp sendOk users newId emailRaw role).result
            = .ok { success := true, email := normalizeEmail emailRaw,
                    requiresOTPVerification := true }
          ∧ (register freshOtp false users newId emailRaw role).result
              = (register freshOtp true users newId emailRaw role).result)
    ∧ (findUserByEmail users (normalizeEmail emailRaw) = none →
        ((register freshOtp true users newId emailRaw role).result
            = .ok { success := true, email := normalizeEmail emailRaw,
                    requiresOTPVerification := true })
        ∧ ((register freshOtp false users newId emailRaw role).result
            = .error .EMAIL_SEND_FAILED)
        ∧ (∃ u ∈ (register freshOtp false users newId emailRaw role).users,
            u.email = normalizeEmail emailRaw)) := by
  constructor
  · intro u hu hver
    refine ⟨?_, ?_⟩ <;> simp [register, hu, hver]
  · intro hnone
    refine ⟨by simp [register, hnone], by simp [register, hnone], ?_⟩
    refine ⟨{ id := newId, email := normalizeEmail emailRaw, role := role,
              otpVerified := false, otp := some freshOtp }, ?_, rfl⟩
    simp [register, hnone]

/-- C8 amended witness: a repeat registration of a concrete unverified
account returns success even though the OTP email send fails. -/
theorem C8_register_notifierFailure_witness :
    (register "123456" false
        [{ id := "u1", email := "a@b.com", role := .EMPLOYEE,
           otpVerified := false, otp := none }]
        "id1" "a@b.com" .EMPLOYEE).result
      = .ok { success := true, email := normalizeEmail "a@b.com",
              requiresOTPVerification := true } :=
  ((C8_register_notifierFailure "123456" false
      [{ id := "u1", email := "a@b.com", role := .EMPLOYEE,
         otpVerified := false, otp := none }]
      "id1" "a@b.com" .EMPLOYEE).1
    { id := "u1", email := "a@b.com", role := .EMPLOYEE,
      otpVerified := false, otp := none }
    (by decide) rfl).1

/-- Characterization of the base user condition of the `employees` query. -/
theorem whereUserVerifiedEmployee_iff (users : List DbUser) (userId : String) :
    whereUserVerifiedEmployee users userId = true ↔
      ∃ u, findUserById users userId = some u
        ∧ u.role = Role.EMPLOYEE ∧ u.otpVerified = true := by
  unfold whereUserVerifiedEmployee
  cases hu : findUserById users userId with
  | none => simp
  | some u => simp [Bool.and_eq_true, beq_iff_eq]

/-- Characterization of the truthy case-insensitive `contains` condition. -/
theorem whereTextContains_iff (column : String) (v : Option String) :
    whereTextContains column v = true ↔
      ∀ n, v = some n → n ≠ "" → containsInsensitive column n = true := by
  unfold whereTextContains
  cases v with
  | none => simp
  | some n => by_cases hne : n = "" <;> simp [hne]

/-- Characterization of the truthy equality condition on `class`. -/
theorem whereTextEquals_iff (column : Option String) (v : Option String) :
    whereTextEquals column v = true ↔
      ∀ c, v = some c → c ≠ "" → column = some c := by
  unfold whereTextEquals
  cases v with
  | none => simp
  | some c => by_cases hne : c = "" <;> simp [hne]

/-- Characterization of the equality condition on `age`. -/
theorem whereAgeEquals_iff (column : Option Int) (v : Option Int) :
    whereAgeEquals column v = true ↔ ∀ a, v = some a → column = some a := by
  unfold whereAgeEquals
  cases v <;> simp

/-- Characterization of the equality condition on `isActive`. -/
theorem whereActiveEquals_iff (column : Bool) (v : Option Bool) :
    whereActiveEquals column v = true ↔ ∀ b, v = some b → column = b := by
  unfold whereActiveEquals
  cases v <;> simp

/-- C9 counterexample: the filter `{class: "math"}` on a row whose class is
`"Math"` is accepted by the spec's case-insensitive-substring predicate but
rejected by the code's `where`, which compares `class` by plain equality. -/
theorem C9_counterexample :
    employeesWhereSpec
        [{ id := "u1", email := "x@y.z", role := .EMPLOYEE,
           otpVerified := true, otp := none }]
        { name := none, age := none, «class» := some "math", isActive := none }
        { id := "e1", userId := "u1", name := "N", age := none,
          «class» := some "Math", isActive := true } = true
    ∧ employeesWhere
        [{ id := "u1", email := "x@y.z", role := .EMPLOYEE,
           otpVerified := true, otp := none }]
        { name := none, age := none, «class» := some "math", isActive := none }
        { id := "e1", userId := "u1", name := "N", age := none,
          «class» := some "Math", isActive := true } = false := by
  decide

/-- C9 amended: in the `employees` query predicate, each absent filter field
imposes no constraint; a provided non-empty `name` constrains rows by
case-insensitive substring matching, while a provided non-empty `class`
constrains rows by plain equality (not substring matching); `age` and
`isActive` constrain by equality; the base condition requires a verified
EMPLOYEE-role owner. -/
theorem C9_employeesFilter_where (users : List DbUser) (f : EmployeeFilter)
    (e : EmployeeRow) :
    employeesWhere users f e = true ↔
      ((∃ u, findUserById users e.userId = some u
          ∧ u.role = Role.EMPLOYEE ∧ u.otpVerified = true)
      ∧ (∀ n, f.name = some n → n ≠ "" → containsInsensitive e.name n = true)
      ∧ (∀ a, f.age = some a → e.age = some a)
      ∧ (∀ c, f.«class» = some c → c ≠ "" → e.«class» = some c)
      ∧ (∀ b, f.isActive = some b → e.isActive = b)) := by
  unfold employeesWhere
  simp only [Bool.and_eq_true, whereUserVerifiedEmployee_iff, whereTextContains_iff,
    whereAgeEquals_iff, whereTextEquals_iff, whereActiveEquals_iff]
  tauto

/-- C9 amended witness: a concrete row passes the predicate under a
`{name: "aNn"}` filter, by case-insensitive substring matching. -/
theorem C9_employeesFilter_where_witness :
    employeesWhere
        [{ id := "u1", email := "x@y.z", role := .EMPLOYEE,
           otpVerified := true, otp := none }]
        { name := some "aNn", age := none, «class» := none, isActive := none }
        { id := "e1", userId := "u1", name := "Anna", age := none,
          «class» := none, isActive := true } = true :=
  (C9_employeesFilter_where
      [{ id := "u1", email := "x@y.z", role := .EMPLOYEE,
         otpVerified := true, otp := none }]
      { name := some "aNn", age := none, «class» := none, isActive := none }
      { id := "e1", userId := "u1", name := "Anna", age := none,
        «class» := none, isActive := true }).mpr
    (by
      refine ⟨⟨{ id := "u1", email := "x@y.z", role := .EMPLOYEE,
                 otpVerified := true, otp := none }, by decide, rfl, rfl⟩,
        ?_, ?_, ?_, ?_⟩
      · intro n hn hne
        cases hn
        decide
      · intro a ha
        cases ha
      · intro c hc hne
        cases hc
      · intro b hb
        cases hb)

/-- Membership in the deduplicated list: the keys not yet cached. -/
theorem mem_dedupKeysAux (l : List String) (seen : List String) (x : String) :
    x ∈ dedupKeysAux seen l ↔ x ∈ l ∧ x ∉ seen := by
  induction l generalizing seen with
  | nil => simp [dedupKeysAux]
  | cons k ks ih =>
    by_cases hk : k ∈ seen
    · rw [dedupKeysAux, if_pos hk, ih seen]
      constructor
      · rintro ⟨h1, h2⟩
        exact ⟨List.mem_cons_of_mem _ h1, h2⟩
      · rintro ⟨h1, h2⟩
        rcases List.mem_cons.mp h1 with rfl | h1
        · exact absurd hk h2
        · exact ⟨h1, h2⟩
    · rw [dedupKeysAux, if_neg hk]
      constructor
      · intro hmem
        rcases List.mem_cons.mp hmem with rfl | hmem
        · exact ⟨List.mem_cons_self _ _, hk⟩
        · obtain ⟨h1, h2⟩ := (ih (k :: seen)).mp hmem
          exact ⟨List.mem_cons_of_mem _ h1,
            fun hs => h2 (List.mem_cons_of_mem _ hs)⟩
      · rintro ⟨h1, h2⟩
        by_cases hx : x = k
        · subst hx
          exact List.mem_cons_self _ _
        · rcases List.mem_cons.mp h1 with rfl | h1
          · exact absurd rfl hx
          · refine List.mem_cons_of_mem _ ((ih (k :: seen)).mpr ⟨h1, ?_⟩)
            intro hs
            rcases List.mem_cons.mp hs with h | hs
            · exact hx h
            · exact h2 hs

/-- Deduplication keeps exactly the requested keys. -/
theorem mem_dedupKeys (l : List String) (x : String) : x ∈ dedupKeys l ↔ x ∈ l := by
  rw [dedupKeys, mem_dedupKeysAux]
  simp

/-- Deduplication produces distinct keys. -/
theorem nodup_dedupKeysAux (l : List String) (seen : List String) :
    (dedupKeysAux seen l).Nodup := by
  induction l generalizing seen with
  | nil => simp [dedupKeysAux]
  | cons k ks ih =>
    by_cases hk : k ∈ seen
    · rw [dedupKeysAux, if_pos hk]
      exact ih seen
    · rw [dedupKeysAux, if_neg hk]
      refine List.nodup_cons.mpr ⟨?_, ih (k :: seen)⟩
      intro hmem
      exact ((mem_dedupKeysAux ks (k :: seen) k).mp hmem).2 (List.mem_cons_self k seen)

/-- Deduplication produces distinct keys. -/
theorem nodup_dedupKeys (l : List String) : (dedupKeys l).Nodup :=
  nodup_dedupKeysAux l []

/-- C2: within one batching window, `loaderFlush` issues exactly one
Persistence Gateway batch call, carrying exactly the deduplicated key set
(distinct keys, same membership as the requests), and resolves each of the
N waiting callers by lookup in that single batch's result. -/
theorem C2_loaderFlush_batchesOnce {V : Type} (batchFn : List String → List (String × V))
    (fallback : V) (keys : List String) :
    (loaderFlush batchFn fallback keys).gatewayCalls = [dedupKeys keys]
    ∧ (loaderFlush batchFn fallback keys).gatewayCalls.length = 1
    ∧ (dedupKeys keys).Nodup
    ∧ (∀ k, k ∈ dedupKeys keys ↔ k ∈ keys)
    ∧ (loaderFlush batchFn fallback keys).resolved.length = keys.length
    ∧ (∀ i, (h : i < (loaderFlush batchFn fallback keys).resolved.length) →
        (loaderFlush batchFn fallback keys).resolved.get ⟨i, h⟩
          = (((batchFn (dedupKeys keys)).find?
                (fun r => r.1 == keys.get ⟨i, by simpa [loaderFlush] using h⟩)).map
              (fun r => r.2)).getD fallback) := by
  refine ⟨rfl, rfl, nodup_dedupKeys keys, mem_dedupKeys keys, by simp [loaderFlush], ?_⟩
  intro i h
  simp [loaderFlush, List.get_eq_getElem, List.getElem_map]

/-- C2 witness: three concurrent loads with two distinct keys produce a
single gateway call carrying exactly those two keys. -/
theorem C2_loaderFlush_batchesOnce_witness :
    (loaderFlush (fun ks => ks.map (fun k => (k, k))) "z" ["a", "b", "a"]).gatewayCalls
      = [["a", "b"]] :=
  (C2_loaderFlush_batchesOnce (fun ks => ks.map (fun k => (k, k))) "z" ["a", "b", "a"]).1

/-- C3: every loader batch callback returns one slot per requested key, and
a key with zero matching rows yields the loader kind's defined empty
result: `none` for the four scalar loaders, `[]` (never `none`/absent, the
slot always being present) for the three list-shaped loaders. -/
theorem C3_loaders_missingKeyFallback (users : List DbUser) (employees : List EmployeeRow)
    (subjects : List SubjectRow) (essSub : List EmployeeSubjectWithSubject)
    (essEmp : List EmployeeSubjectWithEmployee) (attendances : List AttendanceRow)
    (ids : List String) :
    ((userLoaderBatch users ids).length = ids.length
      ∧ ∀ i, (h : i < ids.length) → (∀ u ∈ users, u.id ≠ ids.get ⟨i, h⟩) →
          (userLoaderBatch users ids).get ⟨i, by simpa [userLoaderBatch] using h⟩ = none)
    ∧ ((employeeLoaderBatch employees ids).length = ids.length
      ∧ ∀ i, (h : i < ids.length) → (∀ e ∈ employees, e.id ≠ ids.get ⟨i, h⟩) →
          (employeeLoaderBatch employees ids).get
            ⟨i, by simpa [employeeLoaderBatch] using h⟩ = none)
    ∧ ((employeeByUserIdLoaderBatch employees ids).length = ids.length
      ∧ ∀ i, (h : i < ids.length) → (∀ e ∈ employees, e.userId ≠ ids.get ⟨i, h⟩) →
          (employeeByUserIdLoaderBatch employees ids).get
            ⟨i, by simpa [employeeByUserIdLoaderBatch] using h⟩ = none)
    ∧ ((subjectLoaderBatch subjects ids).length = ids.length
      ∧ ∀ i, (h : i < ids.length) → (∀ s ∈ subjects, s.id ≠ ids.get ⟨i, h⟩) →
          (subjectLoaderBatch subjects ids).get
            ⟨i, by simpa [subjectLoaderBatch] using h⟩ = none)
    ∧ ((subjectsByEmployeeIdLoaderBatch essSub ids).length = ids.length
      ∧ ∀ i, (h : i < ids.length) → (∀ es ∈ essSub, es.employeeId ≠ ids.get ⟨i, h⟩) →
          (subjectsByEmployeeIdLoaderBatch essSub ids).get
            ⟨i, by simpa [subjectsByEmployeeIdLoaderBatch] using h⟩ = [])
    ∧ ((employeesBySubjectIdLoaderBatch essEmp ids).length = ids.length
      ∧ ∀ i, (h : i < ids.length) → (∀ es ∈ essEmp, es.subjectId ≠ ids.get ⟨i, h⟩) →
          (employeesBySubjectIdLoaderBatch essEmp ids).get
            ⟨i, by simpa [employeesBySubjectIdLoaderBatch] using h⟩ = [])
    ∧ ((attendanceByEmployeeIdLoaderBatch attendances ids).length = ids.length
      ∧ ∀ i, (h : i < ids.length) → (∀ a ∈ attendances, a.employeeId ≠ ids.get ⟨i, h⟩) →
          (attendanceByEmployeeIdLoaderBatch attendances ids).get
            ⟨i, by simpa [attendanceByEmployeeIdLoaderBatch] using h⟩ = []) := by
  refine ⟨⟨by simp [userLoaderBatch], ?_⟩, ⟨by simp [employeeLoaderBatch], ?_⟩,
    ⟨by simp [employeeByUserIdLoaderBatch], ?_⟩, ⟨by simp [subjectLoaderBatch], ?_⟩,
    ⟨by simp [subjectsByEmployeeIdLoaderBatch], ?_⟩,
    ⟨by simp [employeesBySubjectIdLoaderBatch], ?_⟩,
    ⟨by simp [attendanceByEmployeeIdLoaderBatch], ?_⟩⟩
  · intro i h hnone
    simp only [userLoaderBatch, List.get_eq_getElem, List.getElem_map, List.find?_eq_none]
    intro u hu
    simp only [beq_iff_eq]
    exact hnone u (List.mem_filter.mp hu).1
  · intro i h hnone
    simp only [employeeLoaderBatch, List.get_eq_getElem, List.getElem_map,
      List.find?_eq_none]
    intro e he
    simp only [beq_iff_eq]
    exact hnone e (List.mem_filter.mp he).1
  · intro i h hnone
    simp only [employeeByUserIdLoaderBatch, List.get_eq_getElem, List.getElem_map,
      List.find?_eq_none]
    intro e he
    simp only [beq_iff_eq]
    exact hnone e (List.mem_filter.mp he).1
  · intro i h hnone
    simp only [subjectLoaderBatch, List.get_eq_getElem, List.getElem_map,
      List.find?_eq_none]
    intro s hs
    simp only [beq_iff_eq]
    exact hnone s (List.mem_filter.mp hs).1
  · intro i h hnone
    simp only [subjectsByEmployeeIdLoaderBatch, List.get_eq_getElem, List.getElem_map]
    have hfil : (essSub.filter (fun es => ids.contains es.employeeId)).filter
        (fun es => es.employeeId == ids.get ⟨i, h⟩) = [] := by
      rw [List.filter_eq_nil_iff]
      intro es hes
      simp only [beq_iff_eq]
      exact hnone es (List.mem_filter.mp hes).1
    rw [List.get_eq_getElem] at hfil
    rw [hfil, List.map_nil]
  · intro i h hnone
    simp only [employeesBySubjectIdLoaderBatch, List.get_eq_getElem, List.getElem_map]
    have hfil : (essEmp.filter (fun es => ids.contains es.subjectId)).filter
        (fun es => es.subjectId == ids.get ⟨i, h⟩) = [] := by
      rw [List.filter_eq_nil_iff]
      intro es hes
      simp only [beq_iff_eq]
      exact hnone es (List.mem_filter.mp hes).1
    rw [List.get_eq_getElem] at hfil
    rw [hfil, List.map_nil]
  · intro i h hnone
    simp only [attendanceByEmployeeIdLoaderBatch, List.get_eq_getElem, List.getElem_map]
    rw [List.filter_eq_nil_iff]
    intro a ha
    simp only [beq_iff_eq]
    exact hnone a (List.mem_filter.mp ha).1

/-- C3 witness: against empty tables, a requested key resolves to `none`
for the user loader and to `[]` for the attendance loader. -/
theorem C3_loaders_missingKeyFallback_witness :
    (userLoaderBatch [] ["k1"]).get ⟨0, by simp [userLoaderBatch]⟩ = none
    ∧ (attendanceByEmployeeIdLoaderBatch [] ["k1"]).get
        ⟨0, by simp [attendanceByEmployeeIdLoaderBatch]⟩ = [] :=
  ⟨(C3_loaders_missingKeyFallback [] [] [] [] [] [] ["k1"]).1.2 0 (by decide)
      (fun u hu => absurd hu (List.not_mem_nil u)),
    (C3_loaders_missingKeyFallback [] [] [] [] [] [] ["k1"]).2.2.2.2.2.2.2 0 (by decide)
      (fun a ha => absurd ha (List.not_mem_nil a))⟩

end GraphQLTask
